import Mathlib

/- Shallow embedding of the veryfi-python client library: the resource
   modules documents.py and w9s.py, and the dispatch interface they use
   from client_base.  Python dicts are insertion-ordered association
   lists, JSON values are the Json inductive, and the shared dispatch
   primitive client.request is an oracle from requests to responses.
   Each embedded method returns the list of requests it dispatched
   (its trace) together with its Python return value or exception. -/

/-- JSON values, as deserialized into Python objects (None, bool, int,
str, list, dict). -/
inductive Json where
  | null : Json
  | bool : Bool → Json
  | num : Int → Json
  | str : String → Json
  | arr : List Json → Json
  | obj : List (String × Json) → Json
deriving Repr

/-- Python exceptions that the embedded code can raise. -/
inductive PyError where
  | typeError : PyError
  | keyError : PyError
  | ioError : PyError
deriving Repr, DecidableEq

/-- Lookup in an insertion-ordered dict (Python d[k] or k in d). -/
def dictGet? {α : Type} : List (String × α) → String → Option α
  | [], _ => none
  | p :: rest, k => if p.1 = k then some p.2 else dictGet? rest k

/-- Python d[k] = v: replace the value in place if the key is present,
otherwise append the pair. -/
def dictSet {α : Type} : List (String × α) → String → α → List (String × α)
  | [], k, v => [(k, v)]
  | p :: rest, k, v => if p.1 = k then (k, v) :: rest else p :: dictSet rest k v

/-- Python d.update(kw): set every pair of kw into d, in order. -/
def dictUpdate {α : Type} (d : List (String × α)) (kw : List (String × α)) :
    List (String × α) :=
  kw.foldl (fun acc p => dictSet acc p.1 p.2) d

/-- A dispatched HTTP request: the three arguments every resource method
passes to client.request (http_verb, endpoint_name, request_arguments). -/
structure HttpRequest where
  method : String
  endpoint : String
  arguments : List (String × Json)
deriving Repr

/-- The shared request-dispatch primitive client.request, as an oracle
from requests to deserialized responses. -/
def Client : Type := HttpRequest → Json

/-- Result of a resource method: a Python value or a raised exception. -/
abbrev PyResult := Except PyError Json

/-- A method call's observable behavior: the requests it dispatched, in
order, and its result. -/
abbrev Dispatch := List HttpRequest × PyResult

/-- The base64 alphabet, as the list of its 64 characters. -/
def base64Chars : List Char :=
  "ABCDEFGHIJKLMNOPQRSTUVWXYZabcdefghijklmnopqrstuvwxyz0123456789+/".toList

/-- Character number n of the base64 alphabet. -/
def b64Char (n : Nat) : Char := base64Chars.getD n 'A'

/-- base64.b64encode on a byte string (bytes as Nat below 256), with
padding, producing ASCII characters. -/
def b64encode : List Nat → List Char
  | [] => []
  | [a] => [b64Char (a / 4), b64Char (a % 4 * 16), '=', '=']
  | [a, b] => [b64Char (a / 4), b64Char (a % 4 * 16 + b / 16), b64Char (b % 16 * 4), '=']
  | a :: b :: c :: rest =>
      b64Char (a / 4) :: b64Char (a % 4 * 16 + b / 16) ::
      b64Char (b % 16 * 4 + c / 64) :: b64Char (c % 64) :: b64encode rest

/-- os.path.basename: the part of the path after the last slash (the
whole path when it has no slash). -/
def basename (p : String) : String :=
  String.mk (p.toList.foldl (fun acc ch => if ch = '/' then [] else acc ++ [ch]) [])

/-- Bool test for one string occurring inside another. -/
def strContainsSub (hay needle : String) : Bool :=
  hay.toList.tails.any fun t => needle.toList.isPrefixOf t

/-- Python equality x == k between a deserialized value and a string:
true exactly when x is that string. -/
def jsonEqStr (x : Json) (k : String) : Bool :=
  match x with
  | Json.str s => s = k
  | _ => false

/-- Python membership k in j for a string k: key lookup on a dict,
element search on a list, substring search on a string, and a TypeError
on every other value. -/
def pyContains (j : Json) (k : String) : Except PyError Bool :=
  match j with
  | Json.obj fields => Except.ok (dictGet? fields k).isSome
  | Json.arr xs => Except.ok (xs.any fun x => jsonEqStr x k)
  | Json.str s => Except.ok (strContainsSub s k)
  | _ => Except.error PyError.typeError

/-- Python indexing j[k] for a string k: field access on a dict (KeyError
when absent), a TypeError on every other value. -/
def pyIndexStr (j : Json) (k : String) : Except PyError Json :=
  match j with
  | Json.obj fields =>
      match dictGet? fields k with
      | some v => Except.ok v
      | none => Except.error PyError.keyError
  | _ => Except.error PyError.typeError

namespace Documents

/-- The 15-entry default category list Documents.CATEGORIES. -/
def CATEGORIES : List String := [
  "Advertising & Marketing",
  "Automotive",
  "Bank Charges & Fees",
  "Legal & Professional Services",
  "Insurance",
  "Meals & Entertainment",
  "Office Supplies & Software",
  "Taxes & Licenses",
  "Travel",
  "Rent & Lease",
  "Repairs & Maintenance",
  "Payroll",
  "Utilities",
  "Job Supplies",
  "Grocery"]

/-- One conditional insertion of get_documents: Python `if v:
request_params[k] = v`, where the truth test on an optional string is
false for None and for the empty string. -/
def addParam (d : List (String × String)) (k : String) :
    Option String → List (String × String)
  | none => d
  | some s => if s = "" then d else dictSet d k s

/-- The request_params dict built by get_documents: the seven named
filters inserted when truthy, then updated with the extra kwargs. -/
def get_documents_params (q eid tag cgt cgte clt clte : Option String)
    (kw : List (String × String)) : List (String × String) :=
  dictUpdate
    (addParam (addParam (addParam (addParam (addParam (addParam (addParam
      [] "q" q) "external_id" eid) "tag" tag)
      "created__gt" cgt) "created__gte" cgte)
      "created__lt" clt) "created__lte" clte) kw

/-- The request dispatched by get_documents: GET on "/documents/", with
the query string appended when request_params is non-empty, and an empty
body. -/
def get_documents_req (q eid tag cgt cgte clt clte : Option String)
    (kw : List (String × String)) : HttpRequest :=
  let ps := get_documents_params q eid tag cgt cgte clt clte kw
  let ep := if ps.isEmpty then "/documents/"
    else "/documents/" ++ "?" ++
      String.intercalate "&" (ps.map fun p => p.1 ++ "=" ++ p.2)
  ⟨"GET", ep, []⟩

/-- Documents.get_documents: dispatch the GET, then return the
response's "documents" member when the membership test succeeds, the
response itself when it fails, propagating a TypeError from either
step. -/
def get_documents (c : Client) (q eid tag cgt cgte clt clte : Option String)
    (kw : List (String × String)) : Dispatch :=
  let req := get_documents_req q eid tag cgt cgte clt clte kw
  let documents := c req
  ([req],
    match pyContains documents "documents" with
    | Except.error e => Except.error e
    | Except.ok true => pyIndexStr documents "documents"
    | Except.ok false => Except.ok documents)

/-- The request dispatched by Documents.get_document. -/
def get_document_req (document_id : Int) : HttpRequest :=
  ⟨"GET", "/documents/" ++ toString document_id ++ "/",
    [("id", Json.num document_id)]⟩

/-- Documents.get_document: dispatch and return the response. -/
def get_document (c : Client) (document_id : Int) : Dispatch :=
  ([get_document_req document_id],
    Except.ok (c (get_document_req document_id)))

/-- The request_arguments dict of Documents.process_document for a file
whose bytes are b: file_name from the path's basename, file_data the
base64 text of b, the category list defaulted when the argument is
falsy (None or empty), auto_delete, then the kwargs update. -/
def process_document_args (file_path : String) (b : List Nat)
    (categories : Option (List String)) (delete_after_processing : Bool)
    (kw : List (String × Json)) : List (String × Json) :=
  let cats := match categories with
    | none => CATEGORIES
    | some [] => CATEGORIES
    | some l => l
  dictUpdate [
    ("file_name", Json.str (basename file_path)),
    ("file_data", Json.str (String.mk (b64encode b))),
    ("categories", Json.arr (cats.map Json.str)),
    ("auto_delete", Json.bool delete_after_processing)] kw

/-- Documents.process_document over an explicit file system fs mapping
paths to byte contents: opening a missing path raises before any
dispatch; otherwise one POST to "/documents/" is dispatched and its
response returned. -/
def process_document (c : Client) (fs : String → Option (List Nat))
    (file_path : String) (categories : Option (List String))
    (delete_after_processing : Bool) (kw : List (String × Json)) : Dispatch :=
  match fs file_path with
  | none => ([], Except.error PyError.ioError)
  | some b =>
    let req : HttpRequest := ⟨"POST", "/documents/",
      process_document_args file_path b categories delete_after_processing kw⟩
    ([req], Except.ok (c req))

/-- The request_arguments dict of Documents.process_document_url: every
field is present, with None (null) standing for an unsupplied optional
argument, then the kwargs update. -/
def process_document_url_args (file_url : Option String)
    (categories : Option (List String)) (delete_after_processing : Bool)
    (boost_mode : Int) (external_id : Option String)
    (max_pages_to_process : Option Int) (file_urls : Option (List String))
    (kw : List (String × Json)) : List (String × Json) :=
  dictUpdate [
    ("auto_delete", Json.bool delete_after_processing),
    ("boost_mode", Json.num boost_mode),
    ("categories", match categories with
      | none => Json.null
      | some l => Json.arr (l.map Json.str)),
    ("external_id", match external_id with
      | none => Json.null
      | some s => Json.str s),
    ("file_url", match file_url with
      | none => Json.null
      | some s => Json.str s),
    ("file_urls", match file_urls with
      | none => Json.null
      | some l => Json.arr (l.map Json.str)),
    ("max_pages_to_process", match max_pages_to_process with
      | none => Json.null
      | some n => Json.num n)] kw

/-- The request dispatched by Documents.process_document_url. -/
def process_document_url_req (file_url : Option String)
    (categories : Option (List String)) (delete_after_processing : Bool)
    (boost_mode : Int) (external_id : Option String)
    (max_pages_to_process : Option Int) (file_urls : Option (List String))
    (kw : List (String × Json)) : HttpRequest :=
  ⟨"POST", "/documents/",
    process_document_url_args file_url categories delete_after_processing
      boost_mode external_id max_pages_to_process file_urls kw⟩

/-- Documents.process_document_url: dispatch and return the response. -/
def process_document_url (c : Client) (file_url : Option String)
    (categories : Option (List String)) (delete_after_processing : Bool)
    (boost_mode : Int) (external_id : Option String)
    (max_pages_to_process : Option Int) (file_urls : Option (List String))
    (kw : List (String × Json)) : Dispatch :=
  let req := process_document_url_req file_url categories
    delete_after_processing boost_mode external_id max_pages_to_process
    file_urls kw
  ([req], Except.ok (c req))

/-- The request dispatched by Documents.delete_document. -/
def delete_document_req (document_id : Int) : HttpRequest :=
  ⟨"DELETE", "/documents/" ++ toString document_id ++ "/",
    [("id", Json.num document_id)]⟩

/-- Documents.delete_document: dispatch the DELETE, discard the
response, and fall off the end of the function, returning None. -/
def delete_document (_c : Client) (document_id : Int) : Dispatch :=
  ([delete_document_req document_id], Except.ok Json.null)

/-- The request dispatched by Documents.update_document: the kwargs
dict is the request body. -/
def update_document_req (document_id : Int)
    (kw : List (String × Json)) : HttpRequest :=
  ⟨"PUT", "/documents/" ++ toString document_id ++ "/", kw⟩

/-- Documents.update_document: dispatch and return the response. -/
def update_document (c : Client) (document_id : Int)
    (kw : List (String × Json)) : Dispatch :=
  ([update_document_req document_id kw],
    Except.ok (c (update_document_req document_id kw)))

/-- The request dispatched by Documents.get_line_items. -/
def get_line_items_req (document_id : Int) : HttpRequest :=
  ⟨"GET", "/documents/" ++ toString document_id ++ "/line-items/", []⟩

/-- Documents.get_line_items: dispatch and return the response. -/
def get_line_items (c : Client) (document_id : Int) : Dispatch :=
  ([get_line_items_req document_id],
    Except.ok (c (get_line_items_req document_id)))

/-- The request dispatched by Documents.get_line_item. -/
def get_line_item_req (document_id line_item_id : Int) : HttpRequest :=
  ⟨"GET", "/documents/" ++ toString document_id ++ "/line-items/" ++
    toString line_item_id, []⟩

/-- Documents.get_line_item: dispatch and return the response. -/
def get_line_item (c : Client) (document_id line_item_id : Int) : Dispatch :=
  ([get_line_item_req document_id line_item_id],
    Except.ok (c (get_line_item_req document_id line_item_id)))

/-- Documents.add_line_item.  The conversion
AddLineItem(**payload).dict(exclude_none=True) lives in veryfi/model.py,
which is not among the provided sources; it is abstracted here as the
validate parameter, which either raises or yields the request body.  A
validation error is raised before any dispatch. -/
def add_line_item (c : Client)
    (validate : List (String × Json) → Except PyError (List (String × Json)))
    (document_id : Int) (payload : List (String × Json)) : Dispatch :=
  match validate payload with
  | Except.error e => ([], Except.error e)
  | Except.ok request_arguments =>
    let req : HttpRequest := ⟨"POST",
      "/documents/" ++ toString document_id ++ "/line-items/",
      request_arguments⟩
    ([req], Except.ok (c req))

/-- Documents.update_line_item, with the UpdateLineItem conversion of
veryfi/model.py abstracted as the validate parameter exactly as in
add_line_item. -/
def update_line_item (c : Client)
    (validate : List (String × Json) → Except PyError (List (String × Json)))
    (document_id line_item_id : Int)
    (payload : List (String × Json)) : Dispatch :=
  match validate payload with
  | Except.error e => ([], Except.error e)
  | Except.ok request_arguments =>
    let req : HttpRequest := ⟨"PUT",
      "/documents/" ++ toString document_id ++ "/line-items/" ++
        toString line_item_id,
      request_arguments⟩
    ([req], Except.ok (c req))

/-- The request dispatched by Documents.delete_line_items. -/
def delete_line_items_req (document_id : Int) : HttpRequest :=
  ⟨"DELETE", "/documents/" ++ toString document_id ++ "/line-items/", []⟩

/-- Documents.delete_line_items: dispatch the DELETE, discard the
response, and return None. -/
def delete_line_items (_c : Client) (document_id : Int) : Dispatch :=
  ([delete_line_items_req document_id], Except.ok Json.null)

/-- The request dispatched by Documents.delete_line_item. -/
def delete_line_item_req (document_id line_item_id : Int) : HttpRequest :=
  ⟨"DELETE", "/documents/" ++ toString document_id ++ "/line-items/" ++
    toString line_item_id, []⟩

/-- Documents.delete_line_item: dispatch the DELETE, discard the
response, and return None. -/
def delete_line_item (_c : Client) (document_id line_item_id : Int) :
    Dispatch :=
  ([delete_line_item_req document_id line_item_id], Except.ok Json.null)

/-- The request dispatched by Documents.add_tag. -/
def add_tag_req (document_id : Int) (tag_name : String) : HttpRequest :=
  ⟨"PUT", "/documents/" ++ toString document_id ++ "/tags/",
    [("name", Json.str tag_name)]⟩

/-- Documents.add_tag: dispatch and return the response. -/
def add_tag (c : Client) (document_id : Int) (tag_name : String) : Dispatch :=
  ([add_tag_req document_id tag_name],
    Except.ok (c (add_tag_req document_id tag_name)))

/-- The request dispatched by Documents.replace_tags. -/
def replace_tags_req (document_id : Int) (tags : List String) : HttpRequest :=
  ⟨"PUT", "/documents/" ++ toString document_id ++ "/",
    [("tags", Json.arr (tags.map Json.str))]⟩

/-- Documents.replace_tags: dispatch and return the response. -/
def replace_tags (c : Client) (document_id : Int) (tags : List String) :
    Dispatch :=
  ([replace_tags_req document_id tags],
    Except.ok (c (replace_tags_req document_id tags)))

/-- The request dispatched by Documents.add_tags. -/
def add_tags_req (document_id : Int) (tags : List String) : HttpRequest :=
  ⟨"POST", "/documents/" ++ toString document_id ++ "/tags/",
    [("tags", Json.arr (tags.map Json.str))]⟩

/-- Documents.add_tags: dispatch and return the response. -/
def add_tags (c : Client) (document_id : Int) (tags : List String) :
    Dispatch :=
  ([add_tags_req document_id tags],
    Except.ok (c (add_tags_req document_id tags)))

end Documents

namespace W9s

/-- The request_arguments dict of W9s.process_w9_document_url:
file_name defaults to the basename of the url when None, then the
kwargs update. -/
def process_w9_document_url_args (file_url : String)
    (file_name : Option String) (kw : List (String × Json)) :
    List (String × Json) :=
  let fn := match file_name with
    | none => basename file_url
    | some s => s
  dictUpdate [
    ("file_name", Json.str fn),
    ("file_url", Json.str file_url)] kw

/-- The request dispatched by W9s.process_w9_document_url. -/
def process_w9_document_url_req (file_url : String)
    (file_name : Option String) (kw : List (String × Json)) : HttpRequest :=
  ⟨"POST", "/w9s/", process_w9_document_url_args file_url file_name kw⟩

/-- W9s.process_w9_document_url: dispatch and return the response. -/
def process_w9_document_url (c : Client) (file_url : String)
    (file_name : Option String) (kw : List (String × Json)) : Dispatch :=
  ([process_w9_document_url_req file_url file_name kw],
    Except.ok (c (process_w9_document_url_req file_url file_name kw)))

/-- The request_arguments dict of W9s.process_w9_document for a file
whose bytes are b: file_name defaults to the basename of the path when
None, file_data is the base64 text of b, then the kwargs update. -/
def process_w9_document_args (file_path : String) (b : List Nat)
    (file_name : Option String) (kw : List (String × Json)) :
    List (String × Json) :=
  let fn := match file_name with
    | none => basename file_path
    | some s => s
  dictUpdate [
    ("file_name", Json.str fn),
    ("file_data", Json.str (String.mk (b64encode b)))] kw

/-- W9s.process_w9_document over an explicit file system: opening a
missing path raises before any dispatch; otherwise one POST to "/w9s/"
is dispatched and its response returned. -/
def process_w9_document (c : Client) (fs : String → Option (List Nat))
    (file_path : String) (file_name : Option String)
    (kw : List (String × Json)) : Dispatch :=
  match fs file_path with
  | none => ([], Except.error PyError.ioError)
  | some b =>
    let req : HttpRequest := ⟨"POST", "/w9s/",
      process_w9_document_args file_path b file_name kw⟩
    ([req], Except.ok (c req))

end W9s

/-- A concrete client whose every response is the string "ok". -/
def clientOk : Client := fun _ => Json.str "ok"

/-- A concrete client whose every response is a dict carrying a
"documents" list. -/
def clientDocs : Client := fun _ =>
  Json.obj [("documents", Json.arr [Json.num 1])]

/-- A concrete client whose every response is the number 5. -/
def clientNum : Client := fun _ => Json.num 5

/-- A concrete client whose every response is a one-element list not
containing the string "documents". -/
def clientArr : Client := fun _ => Json.arr [Json.str "a"]

/-- A concrete file system holding one file, dir/rec.jpg, whose bytes
spell "Man". -/
def fsOne : String → Option (List Nat) := fun p =>
  if p = "dir/rec.jpg" then some [77, 97, 110] else none

/-- The empty file system: every open fails. -/
def fsEmpty : String → Option (List Nat) := fun _ => none

/-- A line-item conversion that accepts every payload unchanged. -/
def validateOk : List (String × Json) → Except PyError (List (String × Json)) :=
  fun d => Except.ok d

section DictLemmas

variable {α : Type}

/-- Setting a key makes it present with the given value. -/
theorem dictGet_set_self (d : List (String × α)) (k : String) (v : α) :
    dictGet? (dictSet d k v) k = some v := by
  induction d with
  | nil => simp [dictSet, dictGet?]
  | cons p rest ih =>
      by_cases h : p.1 = k
      · simp [dictSet, dictGet?, h]
      · simp [dictSet, dictGet?, h, ih]

/-- Setting one key leaves the lookup of another unchanged. -/
theorem dictGet_set_ne (d : List (String × α)) (k q : String) (v : α)
    (h : k ≠ q) : dictGet? (dictSet d k v) q = dictGet? d q := by
  induction d with
  | nil => simp [dictSet, dictGet?, h]
  | cons p rest ih =>
      by_cases hp : p.1 = k
      · simp [dictSet, dictGet?, hp, h]
      · simp [dictSet, dictGet?, hp, ih]

/-- An update with a dict none of whose keys is q leaves the lookup of
q unchanged. -/
theorem dictGet_update_of_notMem (d kw : List (String × α)) (q : String)
    (h : ∀ p ∈ kw, p.1 ≠ q) :
    dictGet? (dictUpdate d kw) q = dictGet? d q := by
  induction kw generalizing d with
  | nil => rfl
  | cons p rest ih =>
      have h1 : p.1 ≠ q := h p (by simp)
      have h2 : ∀ x ∈ rest, x.1 ≠ q := fun x hx => h x (by simp [hx])
      calc dictGet? (dictUpdate d (p :: rest)) q
          = dictGet? (dictUpdate (dictSet d p.1 p.2) rest) q := by
            simp [dictUpdate]
        _ = dictGet? (dictSet d p.1 p.2) q := ih (dictSet d p.1 p.2) h2
        _ = dictGet? d q := dictGet_set_ne _ _ _ _ h1

/-- addParam with a different key leaves a lookup unchanged. -/
theorem dictGet_addParam_ne (d : List (String × String)) (k q : String)
    (v : Option String) (h : k ≠ q) :
    dictGet? (Documents.addParam d k v) q = dictGet? d q := by
  cases v with
  | none => rfl
  | some s =>
      by_cases hs : s = ""
      · simp [Documents.addParam, hs]
      · simp [Documents.addParam, hs, dictGet_set_ne d k q s h]

/-- addParam with a non-empty value makes its key present with that
value. -/
theorem dictGet_addParam_self (d : List (String × String)) (k s : String)
    (hs : s ≠ "") :
    dictGet? (Documents.addParam d k (some s)) k = some s := by
  simp [Documents.addParam, hs, dictGet_set_self d k s]

/-- addParam of None is the identity. -/
theorem addParam_none (d : List (String × String)) (k : String) :
    Documents.addParam d k none = d := rfl

end DictLemmas

/-- C3: each library call maps onto its REST endpoint: get_document
issues GET and update_document issues PUT to "/documents/{id}/",
delete_document issues DELETE to "/documents/{id}/", the line-item
methods target "/documents/{id}/line-items/" (optionally suffixed with
the line item id) with GET, POST, PUT, or DELETE, and add_tag and
add_tags target "/documents/{id}/tags/". -/
theorem claim_C3_endpoints :
    (∀ (c : Client) (id : Int), (Documents.get_document c id).1 =
      [⟨"GET", "/documents/" ++ toString id ++ "/", [("id", Json.num id)]⟩]) ∧
    (∀ (c : Client) (id : Int) kw, (Documents.update_document c id kw).1 =
      [⟨"PUT", "/documents/" ++ toString id ++ "/", kw⟩]) ∧
    (∀ (c : Client) (id : Int), (Documents.delete_document c id).1 =
      [⟨"DELETE", "/documents/" ++ toString id ++ "/",
        [("id", Json.num id)]⟩]) ∧
    (∀ (c : Client) (id : Int), (Documents.get_line_items c id).1 =
      [⟨"GET", "/documents/" ++ toString id ++ "/line-items/", []⟩]) ∧
    (∀ (c : Client) (id lid : Int), (Documents.get_line_item c id lid).1 =
      [⟨"GET", "/documents/" ++ toString id ++ "/line-items/" ++ toString lid,
        []⟩]) ∧
    (∀ (c : Client) v (id : Int) payload r,
      r ∈ (Documents.add_line_item c v id payload).1 →
      r.method = "POST" ∧
      r.endpoint = "/documents/" ++ toString id ++ "/line-items/") ∧
    (∀ (c : Client) v (id lid : Int) payload r,
      r ∈ (Documents.update_line_item c v id lid payload).1 →
      r.method = "PUT" ∧
      r.endpoint = "/documents/" ++ toString id ++ "/line-items/" ++
        toString lid) ∧
    (∀ (c : Client) (id : Int), (Documents.delete_line_items c id).1 =
      [⟨"DELETE", "/documents/" ++ toString id ++ "/line-items/", []⟩]) ∧
    (∀ (c : Client) (id lid : Int), (Documents.delete_line_item c id lid).1 =
      [⟨"DELETE", "/documents/" ++ toString id ++ "/line-items/" ++
        toString lid, []⟩]) ∧
    (∀ (c : Client) (id : Int) tn, (Documents.add_tag c id tn).1 =
      [⟨"PUT", "/documents/" ++ toString id ++ "/tags/",
        [("name", Json.str tn)]⟩]) ∧
    (∀ (c : Client) (id : Int) ts, (Documents.add_tags c id ts).1 =
      [⟨"POST", "/documents/" ++ toString id ++ "/tags/",
        [("tags", Json.arr (ts.map Json.str))]⟩]) := by
  refine ⟨fun c id => rfl, fun c id kw => rfl, fun c id => rfl,
    fun c id => rfl, fun c id lid => rfl, ?_, ?_, fun c id => rfl,
    fun c id lid => rfl, fun c id tn => rfl, fun c id ts => rfl⟩
  · intro c v id payload r hr
    cases hv : v payload with
    | error e => simp [Documents.add_line_item, hv] at hr
    | ok args =>
        simp only [Documents.add_line_item, hv, List.mem_singleton] at hr
        subst hr
        exact ⟨rfl, rfl⟩
  · intro c v id lid payload r hr
    cases hv : v payload with
    | error e => simp [Documents.update_line_item, hv] at hr
    | ok args =>
        simp only [Documents.update_line_item, hv, List.mem_singleton] at hr
        subst hr
        exact ⟨rfl, rfl⟩

/-- Witness for C3 at concrete inputs: a concrete add_line_item and
update_line_item call dispatch to the expected line-item endpoints. -/
theorem claim_C3_endpoints_witness :
    ((⟨"POST", "/documents/7/line-items/", [("total", Json.num 3)]⟩ :
        HttpRequest).method = "POST" ∧
      (⟨"POST", "/documents/7/line-items/", [("total", Json.num 3)]⟩ :
        HttpRequest).endpoint = "/documents/" ++ toString (7 : Int) ++
        "/line-items/") ∧
    ((⟨"PUT", "/documents/7/line-items/2", [("total", Json.num 3)]⟩ :
        HttpRequest).method = "PUT" ∧
      (⟨"PUT", "/documents/7/line-items/2", [("total", Json.num 3)]⟩ :
        HttpRequest).endpoint = "/documents/" ++ toString (7 : Int) ++
        "/line-items/" ++ toString (2 : Int)) :=
  ⟨claim_C3_endpoints.2.2.2.2.2.1 clientOk validateOk 7
      [("total", Json.num 3)] _ (List.mem_singleton.mpr rfl),
    claim_C3_endpoints.2.2.2.2.2.2.1 clientOk validateOk 7 2
      [("total", Json.num 3)] _ (List.mem_singleton.mpr rfl)⟩

/-- C4 fails as stated: a supplied empty-string value for created_gt is
dropped by the Python truth test `if created_gt:`, so nothing is sent
under created__gt, rather than the supplied value. -/
theorem claim_C4_counterexample :
    dictGet? (Documents.get_documents_params none none none (some "")
      none none none []) "created__gt" = none ∧
    (none : Option String) ≠ some "" := by
  exact ⟨rfl, by decide⟩

/-- C4 amended: for every supplied non-empty value of created_gt,
created_gte, created_lt, and created_lte, the value is sent in the
request_params mapping (which get_documents joins into the query
string) under created__gt, created__gte, created__lt, and created__lte
respectively, and non-empty q, external_id, and tag values are sent
under their own names, provided the extra kwargs do not override those
keys. -/
theorem claim_C4_amended_wire_names
    (q eid tag cgt cgte clt clte : Option String)
    (kw : List (String × String))
    (hkw : ∀ p ∈ kw, p.1 ∉ ["q", "external_id", "tag", "created__gt",
      "created__gte", "created__lt", "created__lte"]) :
    (∀ s, q = some s → s ≠ "" →
      dictGet? (Documents.get_documents_params q eid tag cgt cgte clt clte kw)
        "q" = some s) ∧
    (∀ s, eid = some s → s ≠ "" →
      dictGet? (Documents.get_documents_params q eid tag cgt cgte clt clte kw)
        "external_id" = some s) ∧
    (∀ s, tag = some s → s ≠ "" →
      dictGet? (Documents.get_documents_params q eid tag cgt cgte clt clte kw)
        "tag" = some s) ∧
    (∀ s, cgt = some s → s ≠ "" →
      dictGet? (Documents.get_documents_params q eid tag cgt cgte clt clte kw)
        "created__gt" = some s) ∧
    (∀ s, cgte = some s → s ≠ "" →
      dictGet? (Documents.get_documents_params q eid tag cgt cgte clt clte kw)
        "created__gte" = some s) ∧
    (∀ s, clt = some s → s ≠ "" →
      dictGet? (Documents.get_documents_params q eid tag cgt cgte clt clte kw)
        "created__lt" = some s) ∧
    (∀ s, clte = some s → s ≠ "" →
      dictGet? (Documents.get_documents_params q eid tag cgt cgte clt clte kw)
        "created__lte" = some s) := by
  have hne : ∀ x : String, x ∈ (["q", "external_id", "tag", "created__gt",
      "created__gte", "created__lt", "created__lte"] : List String) →
      ∀ p ∈ kw, p.1 ≠ x := by
    intro x hx p hp he
    exact hkw p hp (he ▸ hx)
  refine ⟨?_, ?_, ?_, ?_, ?_, ?_, ?_⟩ <;> intro s hv hs <;> subst hv <;>
    unfold Documents.get_documents_params
  · rw [dictGet_update_of_notMem _ _ _ (hne _ (by decide)),
      dictGet_addParam_ne _ _ _ _ (by decide),
      dictGet_addParam_ne _ _ _ _ (by decide),
      dictGet_addParam_ne _ _ _ _ (by decide),
      dictGet_addParam_ne _ _ _ _ (by decide),
      dictGet_addParam_ne _ _ _ _ (by decide),
      dictGet_addParam_ne _ _ _ _ (by decide),
      dictGet_addParam_self _ _ _ hs]
  · rw [dictGet_update_of_notMem _ _ _ (hne _ (by decide)),
      dictGet_addParam_ne _ _ _ _ (by decide),
      dictGet_addParam_ne _ _ _ _ (by decide),
      dictGet_addParam_ne _ _ _ _ (by decide),
      dictGet_addParam_ne _ _ _ _ (by decide),
      dictGet_addParam_ne _ _ _ _ (by decide),
      dictGet_addParam_self _ _ _ hs]
  · rw [dictGet_update_of_notMem _ _ _ (hne _ (by decide)),
      dictGet_addParam_ne _ _ _ _ (by decide),
      dictGet_addParam_ne _ _ _ _ (by decide),
      dictGet_addParam_ne _ _ _ _ (by decide),
      dictGet_addParam_ne _ _ _ _ (by decide),
      dictGet_addParam_self _ _ _ hs]
  · rw [dictGet_update_of_notMem _ _ _ (hne _ (by decide)),
      dictGet_addParam_ne _ _ _ _ (by decide),
      dictGet_addParam_ne _ _ _ _ (by decide),
      dictGet_addParam_ne _ _ _ _ (by decide),
      dictGet_addParam_self _ _ _ hs]
  · rw [dictGet_update_of_notMem _ _ _ (hne _ (by decide)),
      dictGet_addParam_ne _ _ _ _ (by decide),
      dictGet_addParam_ne _ _ _ _ (by decide),
      dictGet_addParam_self _ _ _ hs]
  · rw [dictGet_update_of_notMem _ _ _ (hne _ (by decide)),
      dictGet_addParam_ne _ _ _ _ (by decide),
      dictGet_addParam_self _ _ _ hs]
  · rw [dictGet_update_of_notMem _ _ _ (hne _ (by decide)),
      dictGet_addParam_self _ _ _ hs]

/-- Witness for C4 at concrete inputs: a supplied query and a supplied
created_gt bound reach the mapping under their wire names. -/
theorem claim_C4_amended_wire_names_witness :
    dictGet? (Documents.get_documents_params (some "inv") none none
      (some "2021-01-01") none none none []) "q" = some "inv" ∧
    dictGet? (Documents.get_documents_params (some "inv") none none
      (some "2021-01-01") none none none []) "created__gt" =
      some "2021-01-01" := by
  have h := claim_C4_amended_wire_names (some "inv") none none
    (some "2021-01-01") none none none [] (by simp)
  exact ⟨h.1 "inv" rfl (by decide), h.2.2.2.1 "2021-01-01" rfl (by decide)⟩

/-- C2 fails as stated: process_document_url called with only a
file_url still builds a request mapping with entries for categories,
external_id, file_urls, and max_pages_to_process, each mapped to None
(null). -/
theorem claim_C2_counterexample :
    dictGet? (Documents.process_document_url_args
      (some "https://cdn.example.com/receipt.jpg") none false 0 none none
      none []) "categories" = some Json.null ∧
    dictGet? (Documents.process_document_url_args
      (some "https://cdn.example.com/receipt.jpg") none false 0 none none
      none []) "external_id" = some Json.null ∧
    dictGet? (Documents.process_document_url_args
      (some "https://cdn.example.com/receipt.jpg") none false 0 none none
      none []) "file_urls" = some Json.null ∧
    dictGet? (Documents.process_document_url_args
      (some "https://cdn.example.com/receipt.jpg") none false 0 none none
      none []) "max_pages_to_process" = some Json.null ∧
    (dictGet? (Documents.process_document_url_args
      (some "https://cdn.example.com/receipt.jpg") none false 0 none none
      none []) "categories").isSome = true :=
  ⟨rfl, rfl, rfl, rfl, rfl⟩

/-- C2 amended: get_documents omits every unsupplied optional
parameter from its query-string mapping, whatever the other parameters
are, but process_document_url does not filter optional fields: each of
categories, external_id, file_urls, and max_pages_to_process left
unsupplied is still sent, mapped to None. -/
theorem claim_C2_amended_optional_filtering
    (q eid tag cgt cgte clt clte : Option String)
    (kw : List (String × String))
    (hkw : ∀ p ∈ kw, p.1 ∉ ["q", "external_id", "tag", "created__gt",
      "created__gte", "created__lt", "created__lte"])
    (fu : Option String) (cats : Option (List String)) (dap : Bool)
    (bm : Int) (eidj : Option String) (mp : Option Int)
    (fus : Option (List String)) (kwj : List (String × Json))
    (hkwj : ∀ p ∈ kwj, p.1 ∉ ["categories", "external_id", "file_urls",
      "max_pages_to_process"]) :
    ((q = none → dictGet? (Documents.get_documents_params q eid tag cgt
      cgte clt clte kw) "q" = none) ∧
     (eid = none → dictGet? (Documents.get_documents_params q eid tag cgt
      cgte clt clte kw) "external_id" = none) ∧
     (tag = none → dictGet? (Documents.get_documents_params q eid tag cgt
      cgte clt clte kw) "tag" = none) ∧
     (cgt = none → dictGet? (Documents.get_documents_params q eid tag cgt
      cgte clt clte kw) "created__gt" = none) ∧
     (cgte = none → dictGet? (Documents.get_documents_params q eid tag cgt
      cgte clt clte kw) "created__gte" = none) ∧
     (clt = none → dictGet? (Documents.get_documents_params q eid tag cgt
      cgte clt clte kw) "created__lt" = none) ∧
     (clte = none → dictGet? (Documents.get_documents_params q eid tag cgt
      cgte clt clte kw) "created__lte" = none)) ∧
    ((cats = none → dictGet? (Documents.process_document_url_args fu cats
      dap bm eidj mp fus kwj) "categories" = some Json.null) ∧
     (eidj = none → dictGet? (Documents.process_document_url_args fu cats
      dap bm eidj mp fus kwj) "external_id" = some Json.null) ∧
     (fus = none → dictGet? (Documents.process_document_url_args fu cats
      dap bm eidj mp fus kwj) "file_urls" = some Json.null) ∧
     (mp = none → dictGet? (Documents.process_document_url_args fu cats
      dap bm eidj mp fus kwj) "max_pages_to_process" = some Json.null)) := by
  have hne : ∀ x : String, x ∈ (["q", "external_id", "tag", "created__gt",
      "created__gte", "created__lt", "created__lte"] : List String) →
      ∀ p ∈ kw, p.1 ≠ x := fun x hx p hp he => hkw p hp (he ▸ hx)
  have hnej : ∀ x : String, x ∈ (["categories", "external_id", "file_urls",
      "max_pages_to_process"] : List String) →
      ∀ p ∈ kwj, p.1 ≠ x := fun x hx p hp he => hkwj p hp (he ▸ hx)
  constructor
  · refine ⟨?_, ?_, ?_, ?_, ?_, ?_, ?_⟩ <;> intro h <;> subst h <;>
      unfold Documents.get_documents_params
    · rw [dictGet_update_of_notMem _ _ _ (hne _ (by decide)),
        dictGet_addParam_ne _ _ _ _ (by decide),
        dictGet_addParam_ne _ _ _ _ (by decide),
        dictGet_addParam_ne _ _ _ _ (by decide),
        dictGet_addParam_ne _ _ _ _ (by decide),
        dictGet_addParam_ne _ _ _ _ (by decide),
        dictGet_addParam_ne _ _ _ _ (by decide)]
      rfl
    · rw [dictGet_update_of_notMem _ _ _ (hne _ (by decide)),
        dictGet_addParam_ne _ _ _ _ (by decide),
        dictGet_addParam_ne _ _ _ _ (by decide),
        dictGet_addParam_ne _ _ _ _ (by decide),
        dictGet_addParam_ne _ _ _ _ (by decide),
        dictGet_addParam_ne _ _ _ _ (by decide), addParam_none,
        dictGet_addParam_ne _ _ _ _ (by decide)]
      rfl
    · rw [dictGet_update_of_notMem _ _ _ (hne _ (by decide)),
        dictGet_addParam_ne _ _ _ _ (by decide),
        dictGet_addParam_ne _ _ _ _ (by decide),
        dictGet_addParam_ne _ _ _ _ (by decide),
        dictGet_addParam_ne _ _ _ _ (by decide), addParam_none,
        dictGet_addParam_ne _ _ _ _ (by decide),
        dictGet_addParam_ne _ _ _ _ (by decide)]
      rfl
    · rw [dictGet_update_of_notMem _ _ _ (hne _ (by decide)),
        dictGet_addParam_ne _ _ _ _ (by decide),
        dictGet_addParam_ne _ _ _ _ (by decide),
        dictGet_addParam_ne _ _ _ _ (by decide), addParam_none,
        dictGet_addParam_ne _ _ _ _ (by decide),
        dictGet_addParam_ne _ _ _ _ (by decide),
        dictGet_addParam_ne _ _ _ _ (by decide)]
      rfl
    · rw [dictGet_update_of_notMem _ _ _ (hne _ (by decide)),
        dictGet_addParam_ne _ _ _ _ (by decide),
        dictGet_addParam_ne _ _ _ _ (by decide), addParam_none,
        dictGet_addParam_ne _ _ _ _ (by decide),
        dictGet_addParam_ne _ _ _ _ (by decide),
        dictGet_addParam_ne _ _ _ _ (by decide),
        dictGet_addParam_ne _ _ _ _ (by decide)]
      rfl
    · rw [dictGet_update_of_notMem _ _ _ (hne _ (by decide)),
        dictGet_addParam_ne _ _ _ _ (by decide), addParam_none,
        dictGet_addParam_ne _ _ _ _ (by decide),
        dictGet_addParam_ne _ _ _ _ (by decide),
        dictGet_addParam_ne _ _ _ _ (by decide),
        dictGet_addParam_ne _ _ _ _ (by decide),
        dictGet_addParam_ne _ _ _ _ (by decide)]
      rfl
    · rw [dictGet_update_of_notMem _ _ _ (hne _ (by decide)), addParam_none,
        dictGet_addParam_ne _ _ _ _ (by decide),
        dictGet_addParam_ne _ _ _ _ (by decide),
        dictGet_addParam_ne _ _ _ _ (by decide),
        dictGet_addParam_ne _ _ _ _ (by decide),
        dictGet_addParam_ne _ _ _ _ (by decide),
        dictGet_addParam_ne _ _ _ _ (by decide)]
      rfl
  · refine ⟨?_, ?_, ?_, ?_⟩ <;> intro h <;> subst h <;>
      unfold Documents.process_document_url_args <;>
      rw [dictGet_update_of_notMem _ _ _ (hnej _ (by decide))] <;> rfl

/-- Witness for C2 at a concrete mixed call: with q and tag supplied
but the others not, external_id and created__gt are omitted; a
process_document_url call with a file_url and an external_id but no
categories or file_urls still sends those two keys as None. -/
theorem claim_C2_amended_optional_filtering_witness :
    dictGet? (Documents.get_documents_params (some "inv") none (some "t")
      none none none none []) "external_id" = none ∧
    dictGet? (Documents.get_documents_params (some "inv") none (some "t")
      none none none none []) "created__gt" = none ∧
    dictGet? (Documents.process_document_url_args
      (some "https://cdn.example.com/receipt.jpg") none false 0 (some "x7")
      none none []) "categories" = some Json.null ∧
    dictGet? (Documents.process_document_url_args
      (some "https://cdn.example.com/receipt.jpg") none false 0 (some "x7")
      none none []) "file_urls" = some Json.null := by
  have h := claim_C2_amended_optional_filtering (some "inv") none (some "t")
    none none none none [] (by simp)
    (some "https://cdn.example.com/receipt.jpg") none false 0 (some "x7")
    none none [] (by simp)
  exact ⟨h.1.2.1 rfl, h.1.2.2.2.1 rfl, h.2.1 rfl, h.2.2.2.1 rfl⟩

/-- C8: when process_document is called with categories None or the
empty list, the dispatched request's categories field is the 15-entry
default Documents.CATEGORIES; a non-empty list is sent unchanged (the
extra kwargs, which Python's dict.update lets override any field, are
assumed not to touch "categories"). -/
theorem claim_C8_default_categories
    (c : Client) (fs : String → Option (List Nat)) (file_path : String)
    (b : List Nat) (hfs : fs file_path = some b)
    (dap : Bool) (kw : List (String × Json))
    (hkw : ∀ p ∈ kw, p.1 ≠ "categories") :
    (∀ cats, (Documents.process_document c fs file_path cats dap kw).1.map
      HttpRequest.arguments =
      [Documents.process_document_args file_path b cats dap kw]) ∧
    dictGet? (Documents.process_document_args file_path b none dap kw)
      "categories" = some (Json.arr (Documents.CATEGORIES.map Json.str)) ∧
    dictGet? (Documents.process_document_args file_path b (some []) dap kw)
      "categories" = some (Json.arr (Documents.CATEGORIES.map Json.str)) ∧
    (∀ x l, dictGet? (Documents.process_document_args file_path b
      (some (x :: l)) dap kw) "categories" =
      some (Json.arr ((x :: l).map Json.str))) ∧
    Documents.CATEGORIES.length = 15 := by
  refine ⟨?_, ?_, ?_, ?_, by decide⟩
  · intro cats
    simp [Documents.process_document, hfs]
  · unfold Documents.process_document_args
    rw [dictGet_update_of_notMem _ _ _ hkw]
    rfl
  · unfold Documents.process_document_args
    rw [dictGet_update_of_notMem _ _ _ hkw]
    rfl
  · intro x l
    unfold Documents.process_document_args
    rw [dictGet_update_of_notMem _ _ _ hkw]
    rfl

/-- Witness for C8 at concrete inputs: a call on the one-file file
system with no categories sends the default list. -/
theorem claim_C8_default_categories_witness :
    dictGet? (Documents.process_document_args "dir/rec.jpg" [77, 97, 110]
      none false []) "categories" =
      some (Json.arr (Documents.CATEGORIES.map Json.str)) ∧
    Documents.CATEGORIES.length = 15 := by
  have h := claim_C8_default_categories clientOk fsOne "dir/rec.jpg"
    [77, 97, 110] rfl false [] (by simp)
  exact ⟨h.2.1, h.2.2.2.2⟩

/-- C5: for a file whose contents are the bytes b, process_document and
process_w9_document dispatch one POST whose mapping carries file_data
equal to the base64 text of b and file_name equal to the basename of
the path (for process_w9_document, when no explicit file_name is
supplied), the extra kwargs not overriding either key. -/
theorem claim_C5_base64_encoding
    (c : Client) (fs : String → Option (List Nat)) (file_path : String)
    (b : List Nat) (hfs : fs file_path = some b)
    (cats : Option (List String)) (dap : Bool)
    (kw : List (String × Json))
    (hkw : ∀ p ∈ kw, p.1 ≠ "file_name" ∧ p.1 ≠ "file_data") :
    (Documents.process_document c fs file_path cats dap kw).1 =
      [⟨"POST", "/documents/",
        Documents.process_document_args file_path b cats dap kw⟩] ∧
    dictGet? (Documents.process_document_args file_path b cats dap kw)
      "file_data" = some (Json.str (String.mk (b64encode b))) ∧
    dictGet? (Documents.process_document_args file_path b cats dap kw)
      "file_name" = some (Json.str (basename file_path)) ∧
    (W9s.process_w9_document c fs file_path none kw).1 =
      [⟨"POST", "/w9s/", W9s.process_w9_document_args file_path b none kw⟩] ∧
    dictGet? (W9s.process_w9_document_args file_path b none kw)
      "file_data" = some (Json.str (String.mk (b64encode b))) ∧
    dictGet? (W9s.process_w9_document_args file_path b none kw)
      "file_name" = some (Json.str (basename file_path)) := by
  have hkwn : ∀ p ∈ kw, p.1 ≠ "file_name" := fun p hp => (hkw p hp).1
  have hkwd : ∀ p ∈ kw, p.1 ≠ "file_data" := fun p hp => (hkw p hp).2
  refine ⟨by simp [Documents.process_document, hfs], ?_, ?_,
    by simp [W9s.process_w9_document, hfs], ?_, ?_⟩
  · unfold Documents.process_document_args
    rw [dictGet_update_of_notMem _ _ _ hkwd]
    cases cats with
    | none => rfl
    | some l => cases l <;> rfl
  · unfold Documents.process_document_args
    rw [dictGet_update_of_notMem _ _ _ hkwn]
    cases cats with
    | none => rfl
    | some l => cases l <;> rfl
  · unfold W9s.process_w9_document_args
    rw [dictGet_update_of_notMem _ _ _ hkwd]
    rfl
  · unfold W9s.process_w9_document_args
    rw [dictGet_update_of_notMem _ _ _ hkwn]
    rfl

/-- Witness for C5 at concrete inputs: the file dir/rec.jpg with bytes
"Man" is sent as file_data "TWFu" under file_name "rec.jpg" by both
methods. -/
theorem claim_C5_base64_encoding_witness :
    dictGet? (Documents.process_document_args "dir/rec.jpg" [77, 97, 110]
      none false []) "file_data" = some (Json.str "TWFu") ∧
    dictGet? (Documents.process_document_args "dir/rec.jpg" [77, 97, 110]
      none false []) "file_name" = some (Json.str "rec.jpg") ∧
    dictGet? (W9s.process_w9_document_args "dir/rec.jpg" [77, 97, 110]
      none []) "file_data" = some (Json.str "TWFu") ∧
    dictGet? (W9s.process_w9_document_args "dir/rec.jpg" [77, 97, 110]
      none []) "file_name" = some (Json.str "rec.jpg") := by
  have h := claim_C5_base64_encoding clientOk fsOne "dir/rec.jpg"
    [77, 97, 110] rfl none false [] (by simp)
  exact ⟨h.2.1, h.2.2.1, h.2.2.2.2.1, h.2.2.2.2.2⟩

/-- C7: process_w9_document and process_w9_document_url both dispatch a
single POST to "/w9s/", and process_w9_document_url defaults file_name
to the basename of the given file_url when no file_name is supplied
(the extra kwargs not overriding that key). -/
theorem claim_C7_w9s_family
    (c : Client) (fs : String → Option (List Nat))
    (file_url file_path : String) (file_name : Option String)
    (b : List Nat) (hfs : fs file_path = some b)
    (kw : List (String × Json)) (hkw : ∀ p ∈ kw, p.1 ≠ "file_name") :
    (W9s.process_w9_document_url c file_url file_name kw).1.map
      (fun r => (r.method, r.endpoint)) = [("POST", "/w9s/")] ∧
    (W9s.process_w9_document c fs file_path file_name kw).1.map
      (fun r => (r.method, r.endpoint)) = [("POST", "/w9s/")] ∧
    dictGet? (W9s.process_w9_document_url_args file_url none kw)
      "file_name" = some (Json.str (basename file_url)) := by
  refine ⟨rfl, by simp [W9s.process_w9_document, hfs], ?_⟩
  unfold W9s.process_w9_document_url_args
  rw [dictGet_update_of_notMem _ _ _ hkw]
  rfl

/-- Witness for C7 at concrete inputs: a W9 url call defaults file_name
to the url's basename and both methods POST to /w9s/. -/
theorem claim_C7_w9s_family_witness :
    (W9s.process_w9_document_url clientOk "https://cdn.example.com/w9.pdf"
      none []).1.map (fun r => (r.method, r.endpoint)) =
      [("POST", "/w9s/")] ∧
    (W9s.process_w9_document clientOk fsOne "dir/rec.jpg" none []).1.map
      (fun r => (r.method, r.endpoint)) = [("POST", "/w9s/")] ∧
    dictGet? (W9s.process_w9_document_url_args
      "https://cdn.example.com/w9.pdf" none []) "file_name" =
      some (Json.str "w9.pdf") := by
  have h := claim_C7_w9s_family clientOk fsOne
    "https://cdn.example.com/w9.pdf" "dir/rec.jpg" none [77, 97, 110] rfl
    [] (by simp)
  exact ⟨h.1, h.2.1, h.2.2⟩

/-- C10: when opening or reading the file fails, process_document and
process_w9_document raise and dispatch nothing: the trace is empty and
no request reaches client.request. -/
theorem claim_C10_no_dispatch_on_file_error
    (c : Client) (fs : String → Option (List Nat)) (file_path : String)
    (hfs : fs file_path = none)
    (cats : Option (List String)) (dap : Bool)
    (kw kw2 : List (String × Json)) (file_name : Option String) :
    Documents.process_document c fs file_path cats dap kw =
      ([], Except.error PyError.ioError) ∧
    W9s.process_w9_document c fs file_path file_name kw2 =
      ([], Except.error PyError.ioError) := by
  constructor
  · simp [Documents.process_document, hfs]
  · simp [W9s.process_w9_document, hfs]

/-- Witness for C10 at concrete inputs: on the empty file system both
methods raise with an empty dispatch trace. -/
theorem claim_C10_no_dispatch_on_file_error_witness :
    Documents.process_document clientOk fsEmpty "rec.jpg" none false [] =
      ([], Except.error PyError.ioError) ∧
    W9s.process_w9_document clientOk fsEmpty "rec.jpg" none [] =
      ([], Except.error PyError.ioError) :=
  claim_C10_no_dispatch_on_file_error clientOk fsEmpty "rec.jpg" rfl
    none false [] [] none

/-- Helper: on a mapping response, get_documents returns the mapping's
"documents" member when the key is present and the mapping itself
otherwise. -/
theorem get_documents_result_of_obj
    (c : Client) (q eid tag cgt cgte clt clte : Option String)
    (kw : List (String × String)) (fields : List (String × Json))
    (h : c (Documents.get_documents_req q eid tag cgt cgte clt clte kw) =
      Json.obj fields) :
    (Documents.get_documents c q eid tag cgt cgte clt clte kw).2 =
      Except.ok ((dictGet? fields "documents").getD (Json.obj fields)) := by
  cases hd : dictGet? fields "documents" <;>
    simp [Documents.get_documents, h, pyContains, pyIndexStr, hd]

/-- C9 fails as stated: when the dispatch primitive yields a
non-mapping, non-sequence response such as the number 5, get_documents
does not return it; the membership test `"documents" in 5` raises a
TypeError. -/
theorem claim_C9_counterexample :
    (Documents.get_documents clientNum none none none none none none none
      []).2 = Except.error PyError.typeError ∧
    clientNum (Documents.get_documents_req none none none none none none
      none []) = Json.num 5 ∧
    (Except.error PyError.typeError : PyResult) ≠ Except.ok (Json.num 5) :=
  ⟨rfl, rfl, fun h => Except.noConfusion h⟩

/-- C9 amended: when the dispatch primitive yields a mapping r,
get_documents returns r["documents"] if the key is present and r itself
otherwise; a list response not containing the string "documents" and a
string response not containing it as a substring are returned
unchanged; every other response raises a TypeError — None, booleans and
numbers at the membership test, and lists or strings for which the test
succeeds at the subsequent string indexing. -/
theorem claim_C9_amended_documents_unwrap
    (c : Client) (q eid tag cgt cgte clt clte : Option String)
    (kw : List (String × String)) :
    (∀ fields,
      c (Documents.get_documents_req q eid tag cgt cgte clt clte kw) =
        Json.obj fields →
      (Documents.get_documents c q eid tag cgt cgte clt clte kw).2 =
        Except.ok ((dictGet? fields "documents").getD (Json.obj fields))) ∧
    (∀ xs,
      c (Documents.get_documents_req q eid tag cgt cgte clt clte kw) =
        Json.arr xs →
      (xs.any fun x => jsonEqStr x "documents") = false →
      (Documents.get_documents c q eid tag cgt cgte clt clte kw).2 =
        Except.ok (Json.arr xs)) ∧
    (∀ s,
      c (Documents.get_documents_req q eid tag cgt cgte clt clte kw) =
        Json.str s →
      strContainsSub s "documents" = false →
      (Documents.get_documents c q eid tag cgt cgte clt clte kw).2 =
        Except.ok (Json.str s)) ∧
    (c (Documents.get_documents_req q eid tag cgt cgte clt clte kw) =
        Json.null →
      (Documents.get_documents c q eid tag cgt cgte clt clte kw).2 =
        Except.error PyError.typeError) ∧
    (∀ b,
      c (Documents.get_documents_req q eid tag cgt cgte clt clte kw) =
        Json.bool b →
      (Documents.get_documents c q eid tag cgt cgte clt clte kw).2 =
        Except.error PyError.typeError) ∧
    (∀ n,
      c (Documents.get_documents_req q eid tag cgt cgte clt clte kw) =
        Json.num n →
      (Documents.get_documents c q eid tag cgt cgte clt clte kw).2 =
        Except.error PyError.typeError) ∧
    (∀ xs,
      c (Documents.get_documents_req q eid tag cgt cgte clt clte kw) =
        Json.arr xs →
      (xs.any fun x => jsonEqStr x "documents") = true →
      (Documents.get_documents c q eid tag cgt cgte clt clte kw).2 =
        Except.error PyError.typeError) ∧
    (∀ s,
      c (Documents.get_documents_req q eid tag cgt cgte clt clte kw) =
        Json.str s →
      strContainsSub s "documents" = true →
      (Documents.get_documents c q eid tag cgt cgte clt clte kw).2 =
        Except.error PyError.typeError) := by
  refine ⟨fun fields h =>
      get_documents_result_of_obj c q eid tag cgt cgte clt clte kw fields h,
    ?_, ?_, ?_, ?_, ?_, ?_, ?_⟩
  · intro xs h hx
    simp [Documents.get_documents, h, pyContains, hx]
  · intro s h hx
    simp [Documents.get_documents, h, pyContains, hx]
  · intro h
    simp [Documents.get_documents, h, pyContains]
  · intro b h
    simp [Documents.get_documents, h, pyContains]
  · intro n h
    simp [Documents.get_documents, h, pyContains]
  · intro xs h hx
    simp [Documents.get_documents, h, pyContains, pyIndexStr, hx]
  · intro s h hx
    simp [Documents.get_documents, h, pyContains, pyIndexStr, hx]

/-- Witness for C9 at concrete inputs: a mapping response holding a
"documents" list is unwrapped to that list, a list response without
"documents" and a string response without the substring come back
unchanged, and a numeric response raises a TypeError. -/
theorem claim_C9_amended_documents_unwrap_witness :
    (Documents.get_documents clientDocs none none none none none none none
      []).2 = Except.ok (Json.arr [Json.num 1]) ∧
    (Documents.get_documents clientArr none none none none none none none
      []).2 = Except.ok (Json.arr [Json.str "a"]) ∧
    (Documents.get_documents clientOk none none none none none none none
      []).2 = Except.ok (Json.str "ok") ∧
    (Documents.get_documents clientNum none none none none none none none
      []).2 = Except.error PyError.typeError :=
  ⟨(claim_C9_amended_documents_unwrap clientDocs none none none none none
      none none []).1 [("documents", Json.arr [Json.num 1])] rfl,
    (claim_C9_amended_documents_unwrap clientArr none none none none none
      none none []).2.1 [Json.str "a"] rfl rfl,
    (claim_C9_amended_documents_unwrap clientOk none none none none none
      none none []).2.2.1 "ok" rfl rfl,
    (claim_C9_amended_documents_unwrap clientNum none none none none none
      none none []).2.2.2.2.2.1 5 rfl⟩

/-- C1 fails as stated: delete_document (and delete_line_items) return
None — their Python bodies dispatch the DELETE and fall off the end —
rather than the dispatched response, here the string "ok". -/
theorem claim_C1_counterexample :
    (Documents.delete_document clientOk 7).2 = Except.ok Json.null ∧
    (Documents.delete_line_items clientOk 7).2 = Except.ok Json.null ∧
    clientOk (Documents.delete_document_req 7) = Json.str "ok" ∧
    (Except.ok Json.null : PyResult) ≠ Except.ok (Json.str "ok") :=
  ⟨rfl, rfl, rfl, fun h => Json.noConfusion (Except.ok.inj h)⟩

/-- C1 amended: every public method of Documents and W9s returns the
deserialized response of its one dispatch unmodified, except that
get_documents returns the response's "documents" member when the
response is a mapping containing that key, and delete_document and
delete_line_items (and delete_line_item) discard the response and
return None. -/
theorem claim_C1_amended_return_values :
    (∀ (c : Client) (id : Int), (Documents.get_document c id).2 =
      Except.ok (c (Documents.get_document_req id))) ∧
    (∀ (c : Client) (id : Int) kw, (Documents.update_document c id kw).2 =
      Except.ok (c (Documents.update_document_req id kw))) ∧
    (∀ (c : Client) fu cats dap bm eid mp fus kw,
      (Documents.process_document_url c fu cats dap bm eid mp fus kw).2 =
      Except.ok (c (Documents.process_document_url_req fu cats dap bm eid mp
        fus kw))) ∧
    (∀ (c : Client) (id : Int), (Documents.get_line_items c id).2 =
      Except.ok (c (Documents.get_line_items_req id))) ∧
    (∀ (c : Client) (id lid : Int), (Documents.get_line_item c id lid).2 =
      Except.ok (c (Documents.get_line_item_req id lid))) ∧
    (∀ (c : Client) (id : Int) tn, (Documents.add_tag c id tn).2 =
      Except.ok (c (Documents.add_tag_req id tn))) ∧
    (∀ (c : Client) (id : Int) ts, (Documents.replace_tags c id ts).2 =
      Except.ok (c (Documents.replace_tags_req id ts))) ∧
    (∀ (c : Client) (id : Int) ts, (Documents.add_tags c id ts).2 =
      Except.ok (c (Documents.add_tags_req id ts))) ∧
    (∀ (c : Client) fu fn kw, (W9s.process_w9_document_url c fu fn kw).2 =
      Except.ok (c (W9s.process_w9_document_url_req fu fn kw))) ∧
    (∀ (c : Client) fs fp cats dap kw r,
      r ∈ (Documents.process_document c fs fp cats dap kw).1 →
      (Documents.process_document c fs fp cats dap kw).2 =
        Except.ok (c r)) ∧
    (∀ (c : Client) fs fp fn kw, ∀ r ∈ (W9s.process_w9_document c fs fp fn
      kw).1, (W9s.process_w9_document c fs fp fn kw).2 = Except.ok (c r)) ∧
    (∀ (c : Client) v (id : Int) payload,
      ∀ r ∈ (Documents.add_line_item c v id payload).1,
      (Documents.add_line_item c v id payload).2 = Except.ok (c r)) ∧
    (∀ (c : Client) v (id lid : Int) payload,
      ∀ r ∈ (Documents.update_line_item c v id lid payload).1,
      (Documents.update_line_item c v id lid payload).2 = Except.ok (c r)) ∧
    (∀ (c : Client) (q eid tag cgt cgte clt clte : Option String) kw fields,
      c (Documents.get_documents_req q eid tag cgt cgte clt clte kw) =
        Json.obj fields →
      (Documents.get_documents c q eid tag cgt cgte clt clte kw).2 =
        Except.ok ((dictGet? fields "documents").getD (Json.obj fields))) ∧
    (∀ (c : Client) (id : Int), (Documents.delete_document c id).2 =
      Except.ok Json.null) ∧
    (∀ (c : Client) (id : Int), (Documents.delete_line_items c id).2 =
      Except.ok Json.null) ∧
    (∀ (c : Client) (id lid : Int), (Documents.delete_line_item c id lid).2 =
      Except.ok Json.null) := by
  refine ⟨fun c id => rfl, fun c id kw => rfl,
    fun c fu cats dap bm eid mp fus kw => rfl, fun c id => rfl,
    fun c id lid => rfl, fun c id tn => rfl, fun c id ts => rfl,
    fun c id ts => rfl, fun c fu fn kw => rfl, ?_, ?_, ?_, ?_,
    fun c q eid tag cgt cgte clt clte kw fields h =>
      get_documents_result_of_obj c q eid tag cgt cgte clt clte kw fields h,
    fun c id => rfl, fun c id => rfl, fun c id lid => rfl⟩
  · intro c fs fp cats dap kw r hr
    cases hfs : fs fp with
    | none => simp [Documents.process_document, hfs] at hr
    | some b =>
        simp only [Documents.process_document, hfs,
          List.mem_singleton] at hr
        subst hr
        simp [Documents.process_document, hfs]
  · intro c fs fp fn kw r hr
    cases hfs : fs fp with
    | none => simp [W9s.process_w9_document, hfs] at hr
    | some b =>
        simp only [W9s.process_w9_document, hfs, List.mem_singleton] at hr
        subst hr
        simp [W9s.process_w9_document, hfs]
  · intro c v id payload r hr
    cases hv : v payload with
    | error e => simp [Documents.add_line_item, hv] at hr
    | ok args =>
        simp only [Documents.add_line_item, hv, List.mem_singleton] at hr
        subst hr
        simp [Documents.add_line_item, hv]
  · intro c v id lid payload r hr
    cases hv : v payload with
    | error e => simp [Documents.update_line_item, hv] at hr
    | ok args =>
        simp only [Documents.update_line_item, hv, List.mem_singleton] at hr
        subst hr
        simp [Documents.update_line_item, hv]

/-- Witness for C1 at concrete inputs: the file-upload and line-item
methods return the dispatched response, and get_documents unwraps a
mapping response. -/
theorem claim_C1_amended_return_values_witness :
    (Documents.process_document clientOk fsOne "dir/rec.jpg" none false
      []).2 = Except.ok (clientOk ⟨"POST", "/documents/",
        Documents.process_document_args "dir/rec.jpg" [77, 97, 110] none
          false []⟩) ∧
    (W9s.process_w9_document clientOk fsOne "dir/rec.jpg" none []).2 =
      Except.ok (clientOk ⟨"POST", "/w9s/",
        W9s.process_w9_document_args "dir/rec.jpg" [77, 97, 110] none []⟩) ∧
    (Documents.add_line_item clientOk validateOk 7
      [("total", Json.num 3)]).2 = Except.ok (clientOk ⟨"POST",
        "/documents/7/line-items/", [("total", Json.num 3)]⟩) ∧
    (Documents.update_line_item clientOk validateOk 7 2
      [("total", Json.num 3)]).2 = Except.ok (clientOk ⟨"PUT",
        "/documents/7/line-items/2", [("total", Json.num 3)]⟩) ∧
    (Documents.get_documents clientDocs none none none none none none none
      []).2 = Except.ok (Json.arr [Json.num 1]) := by
  have h := claim_C1_amended_return_values
  exact ⟨h.2.2.2.2.2.2.2.2.2.1 clientOk fsOne "dir/rec.jpg" none false []
      _ (List.mem_singleton.mpr rfl),
    h.2.2.2.2.2.2.2.2.2.2.1 clientOk fsOne "dir/rec.jpg" none [] _
      (List.mem_singleton.mpr rfl),
    h.2.2.2.2.2.2.2.2.2.2.2.1 clientOk validateOk 7 [("total", Json.num 3)]
      _ (List.mem_singleton.mpr rfl),
    h.2.2.2.2.2.2.2.2.2.2.2.2.1 clientOk validateOk 7 2
      [("total", Json.num 3)] _ (List.mem_singleton.mpr rfl),
    h.2.2.2.2.2.2.2.2.2.2.2.2.2.1 clientDocs none none none none none none
      none [] [("documents", Json.arr [Json.num 1])] rfl⟩

/-- C6 fails as stated: a process_document call whose file cannot be
opened raises before dispatch, so client.request is invoked zero times
for that invocation, not exactly once. -/
theorem claim_C6_counterexample :
    (Documents.process_document clientOk fsEmpty "rec.jpg" none false
      []).1.length = 0 ∧
    (Documents.process_document clientOk fsEmpty "rec.jpg" none false
      []).1.length ≠ 1 :=
  ⟨rfl, by decide⟩

/-- C6 amended: no caching and no retry — every public method of
Documents and W9s invokes client.request at most once, never a second
time for the same call regardless of the response, and exactly once
unless an exception (an unreadable file, a line-item validation error)
is raised before dispatch. -/
theorem claim_C6_amended_single_dispatch :
    (∀ (c : Client) q eid tag cgt cgte clt clte kw,
      (Documents.get_documents c q eid tag cgt cgte clt clte kw).1.length
        = 1) ∧
    (∀ (c : Client) (id : Int), (Documents.get_document c id).1.length
      = 1) ∧
    (∀ (c : Client) fs fp cats dap kw,
      (Documents.process_document c fs fp cats dap kw).1.length ≤ 1) ∧
    (∀ (c : Client) fu cats dap bm eid mp fus kw,
      (Documents.process_document_url c fu cats dap bm eid mp fus
        kw).1.length = 1) ∧
    (∀ (c : Client) (id : Int), (Documents.delete_document c id).1.length
      = 1) ∧
    (∀ (c : Client) (id : Int) kw,
      (Documents.update_document c id kw).1.length = 1) ∧
    (∀ (c : Client) (id : Int), (Documents.get_line_items c id).1.length
      = 1) ∧
    (∀ (c : Client) (id lid : Int),
      (Documents.get_line_item c id lid).1.length = 1) ∧
    (∀ (c : Client) v (id : Int) payload,
      (Documents.add_line_item c v id payload).1.length ≤ 1) ∧
    (∀ (c : Client) v (id lid : Int) payload,
      (Documents.update_line_item c v id lid payload).1.length ≤ 1) ∧
    (∀ (c : Client) (id : Int),
      (Documents.delete_line_items c id).1.length = 1) ∧
    (∀ (c : Client) (id lid : Int),
      (Documents.delete_line_item c id lid).1.length = 1) ∧
    (∀ (c : Client) (id : Int) tn, (Documents.add_tag c id tn).1.length
      = 1) ∧
    (∀ (c : Client) (id : Int) ts,
      (Documents.replace_tags c id ts).1.length = 1) ∧
    (∀ (c : Client) (id : Int) ts, (Documents.add_tags c id ts).1.length
      = 1) ∧
    (∀ (c : Client) fu fn kw,
      (W9s.process_w9_document_url c fu fn kw).1.length = 1) ∧
    (∀ (c : Client) fs fp fn kw,
      (W9s.process_w9_document c fs fp fn kw).1.length ≤ 1) ∧
    (∀ (c : Client) fs fp cats dap kw b, fs fp = some b →
      (Documents.process_document c fs fp cats dap kw).1.length = 1) ∧
    (∀ (c : Client) fs fp fn kw b, fs fp = some b →
      (W9s.process_w9_document c fs fp fn kw).1.length = 1) ∧
    (∀ (c : Client) v (id : Int) payload args, v payload = Except.ok args →
      (Documents.add_line_item c v id payload).1.length = 1) ∧
    (∀ (c : Client) v (id lid : Int) payload args,
      v payload = Except.ok args →
      (Documents.update_line_item c v id lid payload).1.length = 1) := by
  refine ⟨fun c q eid tag cgt cgte clt clte kw => rfl, fun c id => rfl,
    ?_, fun c fu cats dap bm eid mp fus kw => rfl, fun c id => rfl,
    fun c id kw => rfl, fun c id => rfl, fun c id lid => rfl, ?_, ?_,
    fun c id => rfl, fun c id lid => rfl, fun c id tn => rfl,
    fun c id ts => rfl, fun c id ts => rfl, fun c fu fn kw => rfl, ?_,
    ?_, ?_, ?_, ?_⟩
  · intro c fs fp cats dap kw
    cases hfs : fs fp <;> simp [Documents.process_document, hfs]
  · intro c v id payload
    cases hv : v payload <;> simp [Documents.add_line_item, hv]
  · intro c v id lid payload
    cases hv : v payload <;> simp [Documents.update_line_item, hv]
  · intro c fs fp fn kw
    cases hfs : fs fp <;> simp [W9s.process_w9_document, hfs]
  · intro c fs fp cats dap kw b hfs
    simp [Documents.process_document, hfs]
  · intro c fs fp fn kw b hfs
    simp [W9s.process_w9_document, hfs]
  · intro c v id payload args hv
    simp [Documents.add_line_item, hv]
  · intro c v id lid payload args hv
    simp [Documents.update_line_item, hv]

/-- Witness for C6 at concrete inputs: on a readable file or an
accepting line-item conversion, each fallible method dispatches exactly
once. -/
theorem claim_C6_amended_single_dispatch_witness :
    (Documents.process_document clientOk fsOne "dir/rec.jpg" none false
      []).1.length = 1 ∧
    (W9s.process_w9_document clientOk fsOne "dir/rec.jpg" none
      []).1.length = 1 ∧
    (Documents.add_line_item clientOk validateOk 7
      [("total", Json.num 3)]).1.length = 1 ∧
    (Documents.update_line_item clientOk validateOk 7 2
      [("total", Json.num 3)]).1.length = 1 := by
  have h := claim_C6_amended_single_dispatch
  exact ⟨h.2.2.2.2.2.2.2.2.2.2.2.2.2.2.2.2.2.1 clientOk fsOne "dir/rec.jpg"
      none false [] [77, 97, 110] rfl,
    h.2.2.2.2.2.2.2.2.2.2.2.2.2.2.2.2.2.2.1 clientOk fsOne "dir/rec.jpg"
      none [] [77, 97, 110] rfl,
    h.2.2.2.2.2.2.2.2.2.2.2.2.2.2.2.2.2.2.2.1 clientOk validateOk 7
      [("total", Json.num 3)] [("total", Json.num 3)] rfl,
    h.2.2.2.2.2.2.2.2.2.2.2.2.2.2.2.2.2.2.2.2 clientOk validateOk 7 2
      [("total", Json.num 3)] [("total", Json.num 3)] rfl⟩
